import Mathlib

/-!
Shallow embedding of the IoT cloud/edge phenotyping pipeline
(files main.py and iot_health_monitor.py): the digital-twin insight
engine, the smart-home intervention dispatcher, the cloud buffer and the
system health monitor.  Python floats are modelled as exact rationals,
datetimes as rational seconds since an arbitrary epoch, and the ISO
timestamps as the strings the source slices apart.  Free-text fields of
insights (description, recommendation) are presentation only and are not
modelled.
-/

namespace IoTPhenotyping

/-- Model of one push into a Python deque with maxlen equal to cap:
append on the right and evict from the left once capacity is exceeded. -/
def pushBounded {α : Type} (cap : ℕ) (xs : List α) (x : α) : List α :=
  let ys := xs ++ [x]
  if cap < ys.length then ys.drop (ys.length - cap) else ys

/-- Push a whole sequence of items, oldest first, into a bounded window. -/
def pushAll {α : Type} (cap : ℕ) (start : List α) (items : List α) : List α :=
  items.foldl (pushBounded cap) start

/-- Capacity of SmartphoneDigitalTwin.behavior_history, a deque with
maxlen 5000 (main.py line 54). -/
def behavior_history_capacity : ℕ := 5000

/-- Capacity of CloudLayer.analytics_buffer, a deque with maxlen 500
(main.py line 370). -/
def analytics_buffer_capacity : ℕ := 500

/-- Capacity of IoTSystemHealthMonitor.health_history, a deque with
maxlen 1000 (iot_health_monitor.py line 42). -/
def health_history_capacity : ℕ := 1000

/-- Kernel-computable model of the Python str.split(sep) for a one-char
separator, on the underlying character list. -/
def splitOnChar (sep : Char) : List Char → List (List Char)
  | [] => [[]]
  | c :: cs =>
    if c = sep then [] :: splitOnChar sep cs
    else
      match splitOnChar sep cs with
      | [] => [[c]]
      | g :: gs => (c :: g) :: gs

/-- Model of the Python int(...) conversion on a decimal digit string. -/
def natOfDigits (cs : List Char) : ℕ :=
  cs.foldl (fun n c => 10 * n + (c.toNat - 48)) 0

/-- Model of timestamp.split("T")[0]: the date part of an ISO timestamp. -/
def dateOf (ts : String) : String :=
  ⟨(splitOnChar 'T' ts.data).headD []⟩

/-- Model of int(timestamp.split("T")[1].split(":")[0]): the hour part of
an ISO timestamp. -/
def hourOf (ts : String) : ℕ :=
  natOfDigits ((splitOnChar ':' ((splitOnChar 'T' ts.data).getD 1 [])).headD [])

/-- Model of a Python dict assignment d[key] := v on an insertion-ordered
association list: replace the value in place if the key is present,
append at the end otherwise. -/
def setAssoc {β : Type} : List (String × β) → String → β → List (String × β)
  | [], key, v => [(key, v)]
  | (k, w) :: rest, key, v =>
    if k = key then (k, v) :: rest else (k, w) :: setAssoc rest key v

/-- Data record UserBehaviorData from main.py.  The app_usage dict is an
insertion-ordered association list of app name to hours used. -/
structure UserBehaviorData where
  timestamp : String
  app_usage : List (String × ℚ)
  location : String
  communication_count : ℕ
  touch_interactions : ℕ
  unlock_frequency : ℕ
  battery_level : ℚ
  screen_time : ℚ
  typing_speed : ℚ
  ambient_light : ℚ
  accelerometer : List ℚ
  network_usage : ℚ
deriving DecidableEq

/-- Value object ContextualInsight from main.py, without the two
presentation-only free-text fields. -/
structure ContextualInsight where
  pattern_type : String
  severity : String
  confidence : ℚ
deriving DecidableEq

/-- Per-app running statistics kept in SmartphoneDigitalTwin.usage_patterns. -/
structure UsagePatternStat where
  total : ℚ
  sessions : ℕ
  avg_session : ℚ
deriving DecidableEq

namespace Twin

/-- Mutable state of a SmartphoneDigitalTwin (main.py lines 52-58).
MQTT plumbing fields are external collaborators and not modelled. -/
structure TwinState where
  behavior_history : List UserBehaviorData
  usage_patterns : List (String × UsagePatternStat)
  daily_stats : List (String × List ℚ)
  overuse_threshold : ℚ
  session_threshold : ℚ
deriving DecidableEq

/-- Initial twin state from SmartphoneDigitalTwin.__init__. -/
def init_twin : TwinState :=
  { behavior_history := []
    usage_patterns := []
    daily_stats := []
    overuse_threshold := 5.0
    session_threshold := 1.0 }

/-- One step of the per-app loop inside update_patterns: insert a fresh
zero stat when the app is unseen, then add the usage, bump the session
count and recompute the running average. -/
def update_pattern (pats : List (String × UsagePatternStat)) (app : String)
    (usage : ℚ) : List (String × UsagePatternStat) :=
  match pats.lookup app with
  | none =>
      pats ++ [(app, { total := 0 + usage, sessions := 0 + 1,
                       avg_session := (0 + usage) / (((0 + 1 : ℕ)) : ℚ) })]
  | some s =>
      setAssoc pats app
        { total := s.total + usage, sessions := s.sessions + 1,
          avg_session := (s.total + usage) / (((s.sessions + 1 : ℕ)) : ℚ) }

/-- Folding update_pattern over a whole sequence of (activity, duration)
pairs starting from the empty pattern map of a fresh twin. -/
def update_patterns_list (ps : List (String × ℚ)) : List (String × UsagePatternStat) :=
  ps.foldl (fun pats p => update_pattern pats p.1 p.2) []

/-- Number of (activity, duration) pairs submitted for one activity. -/
def sessions_for (a : String) (ps : List (String × ℚ)) : ℕ :=
  (ps.filter (fun p => p.1 == a)).length

/-- Exact sum of the durations submitted for one activity. -/
def total_for (a : String) (ps : List (String × ℚ)) : ℚ :=
  ((ps.filter (fun p => p.1 == a)).map Prod.snd).sum

/-- Model of self.daily_stats[date].append(screen_time) on the defaultdict. -/
def append_daily (stats : List (String × List ℚ)) (date : String) (v : ℚ) :
    List (String × List ℚ) :=
  match stats.lookup date with
  | none => stats ++ [(date, [v])]
  | some l => setAssoc stats date (l ++ [v])

/-- Method SmartphoneDigitalTwin._update_patterns. -/
def update_patterns (st : TwinState) (data : UserBehaviorData) : TwinState :=
  let date := dateOf data.timestamp
  let daily_stats := append_daily st.daily_stats date data.screen_time
  let usage_patterns := data.app_usage.foldl
    (fun pats p => update_pattern pats p.1 p.2) st.usage_patterns
  { st with daily_stats := daily_stats, usage_patterns := usage_patterns }

/-- Method SmartphoneDigitalTwin.add_behavior_data: push into the bounded
history, update the derived pattern state; the MQTT publish is I/O only. -/
def add_behavior_data (st : TwinState) (data : UserBehaviorData) : TwinState :=
  update_patterns
    { st with behavior_history :=
        pushBounded behavior_history_capacity st.behavior_history data }
    data

/-- Control command delivered on the reserved command topic
(SmartphoneDigitalTwin._handle_command).  The update_threshold payload
may omit its value field, in which case the old threshold is kept. -/
inductive Command where
  | update_threshold (value : Option ℚ)
  | reset_patterns
  | other
deriving DecidableEq

/-- Method SmartphoneDigitalTwin._handle_command. -/
def handle_command (st : TwinState) (command : Command) : TwinState :=
  match command with
  | .update_threshold value =>
      { st with overuse_threshold := value.getD st.overuse_threshold }
  | .reset_patterns => { st with usage_patterns := [] }
  | .other => st

/-- The last 50 data points, list(self.behavior_history)[-50:]. -/
def recent_data_of (st : TwinState) : List UserBehaviorData :=
  st.behavior_history.drop (st.behavior_history.length - 50)

/-- Method SmartphoneDigitalTwin._detect_long_sessions: scan for runs of
positive screen time; a run is flushed when a zero-screen-time entry is
met and the accumulated duration exceeds the session threshold. -/
def detect_long_sessions (session_threshold : ℚ)
    (data : List UserBehaviorData) : List (ℚ × String) :=
  (data.foldl
    (fun (acc : List (ℚ × String) × ℚ) entry =>
      if entry.screen_time > 0 then (acc.1, acc.2 + entry.screen_time)
      else if acc.2 > session_threshold then
        (acc.1 ++ [(acc.2, entry.timestamp)], 0)
      else (acc.1, 0))
    ([], 0)).1

/-- Loop body of _detect_late_night_usage: over an entry whose hour is
in the late band (hour at least 22 or at most 6), bump the late count
and, when its screen time exceeds 0.2, add that screen time to the
accumulated usage; leave other entries alone. -/
def late_night_step (acc : ℚ × ℕ) (entry : UserBehaviorData) : ℚ × ℕ :=
  let hour := hourOf entry.timestamp
  if 22 ≤ hour ∨ hour ≤ 6 then
    ((if entry.screen_time > 0.2 then acc.1 + entry.screen_time else acc.1),
     acc.2 + 1)
  else acc

/-- Method SmartphoneDigitalTwin._detect_late_night_usage: fire when the
accumulated usage divided by the late count exceeds 0.3 or the
accumulated usage exceeds 0.5. -/
def detect_late_night_usage (data : List UserBehaviorData) : Bool :=
  let acc := data.foldl late_night_step ((0 : ℚ), (0 : ℕ))
  let late_night_usage := acc.1
  let total_late_entries := acc.2
  if total_late_entries = 0 then false
  else
    let avg_late_usage := late_night_usage / ((max total_late_entries 1 : ℕ) : ℚ)
    if avg_late_usage > 0.3 ∨ late_night_usage > 0.5 then true else false

/-- Daily-overuse rule of detect_overuse_patterns: when today has
recorded screen times and their sum exceeds the configured threshold,
one insight; severity high above the hard ceiling of 10 hours, else
medium. -/
def daily_insights (st : TwinState) (today : String) : List ContextualInsight :=
  match st.daily_stats.lookup today with
  | some l =>
    let daily_total := l.sum
    if daily_total > st.overuse_threshold then
      [{ pattern_type := "daily_overuse"
         severity := if daily_total > 10 then "high" else "medium"
         confidence := 0.9 }]
    else []
  | none => []

/-- Long-session rule of detect_overuse_patterns: one summarizing
insight when any extended session was found in the recent window. -/
def session_insights (st : TwinState) : List ContextualInsight :=
  if detect_long_sessions st.session_threshold (recent_data_of st) ≠ [] then
    [{ pattern_type := "long_sessions", severity := "medium", confidence := 0.8 }]
  else []

/-- Late-night rule of detect_overuse_patterns: one insight of severity
high when _detect_late_night_usage fires on the recent window. -/
def late_insights (st : TwinState) : List ContextualInsight :=
  if detect_late_night_usage (recent_data_of st) then
    [{ pattern_type := "late_night_usage", severity := "high", confidence := 0.85 }]
  else []

/-- Method SmartphoneDigitalTwin.detect_overuse_patterns.  The parameter
today stands for datetime.now().strftime("%Y-%m-%d").  The three rules
run in source order on the same state; with no behaviour history the
method returns early with no insights. -/
def detect_overuse_patterns (st : TwinState) (today : String) :
    List ContextualInsight :=
  if st.behavior_history = [] then []
  else daily_insights st today ++ session_insights st ++ late_insights st

/-- Externally triggered operations on the digital twin: data ingestion,
a control command, or a detection pass.  Since detect_overuse_patterns
only reads the twin state in the source, the detect operation leaves the
state unchanged here. -/
inductive TwinOp where
  | ingest (data : UserBehaviorData)
  | command (c : Command)
  | detect (today : String)

/-- State transition of one twin operation. -/
def apply_twin_op (st : TwinState) (op : TwinOp) : TwinState :=
  match op with
  | .ingest data => add_behavior_data st data
  | .command c => handle_command st c
  | .detect _ => st

/-- Samples of a window that fall in the late-night hour band, as the
claim words it (hour at least 22 or at most 6). -/
def late_band_samples (data : List UserBehaviorData) : List UserBehaviorData :=
  data.filter (fun e => decide (22 ≤ hourOf e.timestamp ∨ hourOf e.timestamp ≤ 6))

/-- Late-band samples whose screen time exceeds the 0.2 accumulation
threshold of _detect_late_night_usage. -/
def heavy_late_band_samples (data : List UserBehaviorData) : List UserBehaviorData :=
  (late_band_samples data).filter (fun e => decide (e.screen_time > 0.2))

/-- Screen time accumulated by the late-night loop: the sum over
late-band samples whose screen time exceeds 0.2. -/
def late_band_usage (data : List UserBehaviorData) : ℚ :=
  ((heavy_late_band_samples data).map (fun e => e.screen_time)).sum

/-- Sample fixture: every field but the timestamp and screen time held
at neutral values. -/
def sample_at (ts : String) (screen_time : ℚ) : UserBehaviorData :=
  { timestamp := ts
    app_usage := []
    location := "home"
    communication_count := 30
    touch_interactions := 300
    unlock_frequency := 50
    battery_level := 80
    screen_time := screen_time
    typing_speed := 40
    ambient_light := 100
    accelerometer := [0, 0, 0]
    network_usage := 500 }

/-- Twin that received an update_threshold command setting the daily
threshold to 8.0 hours and then one midday sample with the given screen
time on 2024-01-15. -/
def twin_daily (screen_time : ℚ) : TwinState :=
  add_behavior_data
    (handle_command init_twin (Command.update_threshold (some 8.0)))
    (sample_at "2024-01-15T12:00:00" screen_time)

/-- Twin whose window holds two late-night samples with screen times 0.2
and 0.45: their true average 0.325 exceeds the 0.3 ratio threshold, but
the loop of _detect_late_night_usage only accumulates the 0.45 one. -/
def twin_late_cex : TwinState :=
  add_behavior_data
    (add_behavior_data init_twin (sample_at "2024-01-15T23:00:00" 0.2))
    (sample_at "2024-01-15T23:30:00" 0.45)

/-- Twin whose window holds one late-night sample with screen time 0. -/
def twin_late_zero : TwinState :=
  add_behavior_data init_twin (sample_at "2024-01-15T23:00:00" 0)

/-- Twin whose window holds one late-night sample with screen time 0.6. -/
def twin_late_heavy : TwinState :=
  add_behavior_data init_twin (sample_at "2024-01-15T23:00:00" 0.6)

end Twin

namespace Edge

/-- Method EdgeComputingLayer._calculate_usage_intensity: the mean of
four factors, each normalised by a ceiling and clamped at 1. -/
def calculate_usage_intensity (data : UserBehaviorData) : ℚ :=
  let factors : List ℚ :=
    [min (data.screen_time / 2.0) 1.0,
     min ((data.touch_interactions : ℚ) / 600.0) 1.0,
     min ((data.unlock_frequency : ℚ) / 100.0) 1.0,
     min ((data.app_usage.map Prod.snd).sum / 3.0) 1.0]
  factors.sum / (factors.length : ℚ)

/-- Time-of-day penalty drawn inside _calculate_context_score.  The
source draws random.uniform(a, b) in one of four hour bands; the draw is
modelled as a + u * (b - a) for a uniform parameter u in the unit
interval. -/
def time_penalty_value (hour : ℕ) (u : ℚ) : ℚ :=
  if 23 ≤ hour ∨ hour ≤ 5 then 0.7 + u * (1.0 - 0.7)
  else if hour = 6 ∨ hour = 22 then 0.4 + u * (0.7 - 0.4)
  else if (7 ≤ hour ∧ hour ≤ 9) ∨ (17 ≤ hour ∧ hour ≤ 19) then 0.2 + u * (0.5 - 0.2)
  else 0.0 + u * (0.3 - 0.0)

/-- Jitter term random.uniform(-0.05, 0.15) of _calculate_context_score,
modelled with a uniform parameter u in the unit interval. -/
def random_factor_value (u : ℚ) : ℚ :=
  (-0.05) + u * (0.15 - (-0.05))

/-- Method EdgeComputingLayer._calculate_context_score.  The ambient dict
is passed as its two used fields; the two random draws are passed as
uniform parameters u_time and u_random in the unit interval. -/
def calculate_context_score (smartphone_data : UserBehaviorData)
    (light_intensity noise_level : ℚ) (u_time u_random : ℚ) : ℚ :=
  let hour := hourOf smartphone_data.timestamp
  let time_penalty := time_penalty_value hour u_time
  let location_penalty : ℚ :=
    if smartphone_data.location = "work" ∧ hour > 18 then 0.5
    else if smartphone_data.location = "leisure" ∧ 9 ≤ hour ∧ hour ≤ 17 then 0.4
    else 0.0
  let light_factor := min (light_intensity / 500.0) 1.0
  let noise_factor := noise_level / 70.0
  let total_app_usage := (smartphone_data.app_usage.map Prod.snd).sum
  let usage_penalty := min (total_app_usage / 4.0) 0.3
  let random_factor := random_factor_value u_random
  let context_score := 1.0 - (time_penalty + location_penalty + usage_penalty +
    (1 - light_factor) * 0.2 + noise_factor * 0.15 + random_factor)
  max 0.0 (min 1.0 context_score)

end Edge

namespace SmartHome

/-- Known device ids, the keys of SmartHomeManager.available_devices. -/
def available_devices : List String := ["alexa", "smart_bulbs", "smart_thermostat"]

/-- One smart-home intervention record as produced by
get_device_interventions; the settings payload type is abstract. -/
structure SmartHomeIntervention (σ : Type) where
  device : String
  action : String
  description : String
  settings : σ
deriving DecidableEq

/-- Mutable record-keeping of SmartHomeManager: the last-known settings
per device and the append-only intervention history of (timestamp,
intervention) records. -/
structure SmartHomeState (σ : Type) where
  device_states : List (String × σ)
  intervention_history : List (ℚ × SmartHomeIntervention σ)
deriving DecidableEq

/-- Initial state from SmartHomeManager.__init__. -/
def init_smart_home {σ : Type} : SmartHomeState σ :=
  { device_states := [], intervention_history := [] }

/-- Method SmartHomeManager.apply_intervention: succeed exactly when the
device id is known, overwriting the last device settings and appending an
immutable history record. -/
def apply_intervention {σ : Type} (st : SmartHomeState σ) (now : ℚ)
    (intervention : SmartHomeIntervention σ) : SmartHomeState σ × Bool :=
  if available_devices.contains intervention.device then
    ({ device_states :=
         setAssoc st.device_states intervention.device intervention.settings,
       intervention_history :=
         st.intervention_history ++ [(now, intervention)] }, true)
  else (st, false)

/-- Number of stored entries whose key is the given device id. -/
def device_entry_count {σ : Type} (st : SmartHomeState σ) (device : String) : ℕ :=
  (st.device_states.filter (fun p => p.1 = device)).length

/-- Concrete intervention used to witness the record-keeping theorem,
shaped like the alexa entry of the late-night mapping with its settings
payload abstracted to a number. -/
def demo_intervention : SmartHomeIntervention ℕ :=
  { device := "alexa"
    action := "enable_sleep_mode"
    description := "Activate sleep mode with ambient sounds"
    settings := 3 }

end SmartHome

namespace HealthMonitor

/-- Component map expected_components from IoTSystemHealthMonitor.__init__. -/
def expected_components : List (String × String) :=
  [("digital_twin", "iot/digitaltwin/behavior"),
   ("edge_layer", "iot/edge/processed"),
   ("cloud_layer", "iot/cloud/recommendations"),
   ("smart_home", "iot/smart_home/status")]

/-- Threshold health_thresholds["critical_error_rate"]. -/
def critical_error_rate : ℚ := 0.1

/-- Threshold health_thresholds["degraded_error_rate"]. -/
def degraded_error_rate : ℚ := 0.05

/-- Threshold health_thresholds["max_response_time"]. -/
def max_response_time : ℚ := 5.0

/-- Threshold health_thresholds["min_uptime"]. -/
def min_uptime : ℚ := 0.95

/-- Threshold health_thresholds["max_data_loss"]. -/
def max_data_loss : ℚ := 0.05

/-- Threshold health_thresholds["min_connection_stability"]. -/
def min_connection_stability : ℚ := 0.9

/-- Method IoTSystemHealthMonitor._determine_system_status. -/
def determine_system_status (error_rate avg_response_time uptime
    data_loss_rate connection_stability : ℚ) : String :=
  if error_rate > critical_error_rate ∨
      avg_response_time > max_response_time * 2 ∨
      uptime < 0.8 ∨
      data_loss_rate > max_data_loss * 2 ∨
      connection_stability < 0.5 then
    "critical"
  else if error_rate > degraded_error_rate ∨
      avg_response_time > max_response_time ∨
      uptime < min_uptime ∨
      data_loss_rate > max_data_loss ∨
      connection_stability < min_connection_stability then
    "degraded"
  else
    "healthy"

/-- System-status decision exactly as claim C1 words it: with the
critical error-rate cut-off doubled (error_rate above 2 times 0.1).
Written from the claim, to be compared against determine_system_status. -/
def system_status_claimed (error_rate avg_response_time uptime
    data_loss_rate connection_stability : ℚ) : String :=
  if error_rate > 2 * 0.1 ∨
      avg_response_time > 2 * 5.0 ∨
      uptime < 0.8 ∨
      data_loss_rate > 2 * 0.05 ∨
      connection_stability < 0.5 then
    "critical"
  else if error_rate > 0.05 ∨
      avg_response_time > 5.0 ∨
      uptime < 0.95 ∨
      data_loss_rate > 0.05 ∨
      connection_stability < 0.9 then
    "degraded"
  else
    "healthy"

/-- Amended system-status decision: identical to the claimed one except
that the critical error-rate cut-off is the critical_error_rate
threshold 0.1 itself, not doubled. -/
def system_status_amended (error_rate avg_response_time uptime
    data_loss_rate connection_stability : ℚ) : String :=
  if error_rate > 0.1 ∨
      avg_response_time > 2 * 5.0 ∨
      uptime < 0.8 ∨
      data_loss_rate > 2 * 0.05 ∨
      connection_stability < 0.5 then
    "critical"
  else if error_rate > 0.05 ∨
      avg_response_time > 5.0 ∨
      uptime < 0.95 ∨
      data_loss_rate > 0.05 ∨
      connection_stability < 0.9 then
    "degraded"
  else
    "healthy"

/-- Method IoTSystemHealthMonitor._calculate_health_score. -/
def calculate_health_score (uptime : ℚ) (failures : ℕ)
    (error_rate response_time data_loss connection_stability : ℚ) : ℚ :=
  let uptime_score := uptime * 0.25
  let failures_score :=
    max 0 (1.0 - ((failures : ℚ) / (expected_components.length : ℚ))) * 0.20
  let error_rate_score := max 0 (1.0 - error_rate / 0.1) * 0.20
  let response_time_score := max 0 (1.0 - response_time / 5.0) * 0.15
  let data_loss_score := max 0 (1.0 - data_loss / 0.05) * 0.10
  let connection_stability_score := connection_stability * 0.10
  let total_score := uptime_score + failures_score + error_rate_score +
    response_time_score + data_loss_score + connection_stability_score
  max 0.0 (min 1.0 total_score)

/-- Health-score formula exactly as claim C2 words it, with the tracked
component count written as the literal 4: each parenthesized term is
floored at 0 before weighting and the final sum is clamped to the unit
interval. -/
def health_score_claimed (uptime : ℚ) (failures : ℕ)
    (error_rate response_time data_loss connection_stability : ℚ) : ℚ :=
  min 1.0 (max 0.0 (uptime * 0.25 +
    max 0 (1.0 - (failures : ℚ) / (4 : ℚ)) * 0.20 +
    max 0 (1.0 - error_rate / 0.1) * 0.20 +
    max 0 (1.0 - response_time / 5.0) * 0.15 +
    max 0 (1.0 - data_loss / 0.05) * 0.10 +
    connection_stability * 0.10))

/-- Record SystemHealthMetrics from iot_health_monitor.py. -/
structure SystemHealthMetrics where
  timestamp : ℚ
  overall_uptime : ℚ
  component_failures : ℕ
  error_rate : ℚ
  avg_response_time : ℚ
  data_loss_rate : ℚ
  connection_stability : ℚ
  system_status : String
  health_score : ℚ
deriving DecidableEq

/-- Record ComponentHealthStatus from iot_health_monitor.py. -/
structure ComponentHealthStatus where
  component_name : String
  status : String
  last_heartbeat : ℚ
  response_time : ℚ
  error_count : ℕ
  uptime_seconds : ℚ
  data_flow_rate : ℚ
  mqtt_connected : Bool
deriving DecidableEq

/-- One entry of the error_log list. -/
structure ErrorEvent where
  timestamp : ℚ
  error : String
  component : String
deriving DecidableEq

/-- One entry of the data_loss_events list. -/
structure DataLossEvent where
  timestamp : ℚ
  topic : String
  reason : String
deriving DecidableEq

/-- One entry of the connection_events list. -/
structure ConnectionEvent where
  timestamp : ℚ
  topic : String
  message_size : ℕ
deriving DecidableEq

/-- Mutable state of an IoTSystemHealthMonitor; MQTT plumbing and thread
handles are external collaborators and not modelled. -/
structure MonitorState where
  start_time : ℚ
  health_history : List SystemHealthMetrics
  component_health : List (String × ComponentHealthStatus)
  error_log : List ErrorEvent
  response_times : List (String × List ℚ)
  data_loss_events : List DataLossEvent
  connection_events : List ConnectionEvent
deriving DecidableEq

/-- Monitor state at construction time: every event store empty. -/
def init_monitor (start_time : ℚ) : MonitorState :=
  { start_time := start_time
    health_history := []
    component_health := []
    error_log := []
    response_times := []
    data_loss_events := []
    connection_events := [] }

/-- Method IoTSystemHealthMonitor._calculate_system_uptime: 100 percent
without history, otherwise 30 seconds per healthy-or-degraded snapshot
over the elapsed wall time, capped at 1. -/
def calculate_system_uptime (st : MonitorState) (now : ℚ) : ℚ :=
  if st.health_history.isEmpty then 1.0
  else
    let total_time := now - st.start_time
    let healthy_time := st.health_history.foldl
      (fun acc r =>
        if r.system_status = "healthy" ∨ r.system_status = "degraded" then
          acc + 30
        else acc) 0
    min 1.0 (healthy_time / max total_time 1)

/-- Method IoTSystemHealthMonitor._count_component_failures: a component
counts as failed when its status is failed or its last heartbeat is more
than 300 seconds old. -/
def count_component_failures (st : MonitorState) (now : ℚ) : ℕ :=
  st.component_health.foldl
    (fun acc p =>
      if p.2.status = "failed" ∨ now - p.2.last_heartbeat > 300 then acc + 1
      else acc) 0

/-- Method IoTSystemHealthMonitor._calculate_error_rate: errors of the
last hour divided by 60, and 0 with an empty error log. -/
def calculate_error_rate (st : MonitorState) (now : ℚ) : ℚ :=
  if st.error_log.isEmpty then 0.0
  else
    let one_hour_ago := now - 3600
    let recent_errors := st.error_log.filter (fun e => e.timestamp > one_hour_ago)
    (recent_errors.length : ℚ) / 60.0

/-- Method IoTSystemHealthMonitor._calculate_average_response_time. -/
def calculate_average_response_time (st : MonitorState) : ℚ :=
  let all_response_times := (st.response_times.map Prod.snd).flatten
  if all_response_times.isEmpty then 0.0
  else all_response_times.sum / (all_response_times.length : ℚ)

/-- Method IoTSystemHealthMonitor._calculate_data_loss_rate: losses of
the last hour over all connection events ever observed, 0 without any
loss event or without any message. -/
def calculate_data_loss_rate (st : MonitorState) (now : ℚ) : ℚ :=
  if st.data_loss_events.isEmpty then 0.0
  else
    let one_hour_ago := now - 3600
    let recent_losses := st.data_loss_events.filter (fun e => e.timestamp > one_hour_ago)
    let total_messages := st.connection_events.length
    let lost_messages := recent_losses.length
    if 0 < total_messages then (lost_messages : ℚ) / (total_messages : ℚ)
    else 0.0

/-- Method IoTSystemHealthMonitor._calculate_connection_stability:
events of the last hour over an expected baseline of one message per
minute per tracked component, capped at 1; 1 without any event. -/
def calculate_connection_stability (st : MonitorState) (now : ℚ) : ℚ :=
  if st.connection_events.isEmpty then 1.0
  else
    let one_hour_ago := now - 3600
    let recent_events := st.connection_events.filter (fun e => e.timestamp > one_hour_ago)
    if recent_events.isEmpty then 1.0
    else
      let expected_events_per_hour := expected_components.length * 60
      min 1.0 ((recent_events.length : ℚ) / ((max expected_events_per_hour 1 : ℕ) : ℚ))

/-- Method IoTSystemHealthMonitor.evaluate_system_health, with the wall
clock datetime.now() passed in as now. -/
def evaluate_system_health (st : MonitorState) (now : ℚ) : SystemHealthMetrics :=
  let system_uptime := calculate_system_uptime st now
  let component_failures := count_component_failures st now
  let error_rate := calculate_error_rate st now
  let avg_response_time := calculate_average_response_time st
  let data_loss_rate := calculate_data_loss_rate st now
  let connection_stability := calculate_connection_stability st now
  let system_status := determine_system_status error_rate avg_response_time
    system_uptime data_loss_rate connection_stability
  let health_score := calculate_health_score system_uptime component_failures
    error_rate avg_response_time data_loss_rate connection_stability
  { timestamp := now
    overall_uptime := system_uptime
    component_failures := component_failures
    error_rate := error_rate
    avg_response_time := avg_response_time
    data_loss_rate := data_loss_rate
    connection_stability := connection_stability
    system_status := system_status
    health_score := health_score }

end HealthMonitor

/-!
Theorems.  Helper lemmas come first, then one theorem per claim (with a
witness or counterexample where required).
-/

/-- Folding bounded pushes from a state within capacity keeps exactly the
last cap elements of state-then-items. -/
theorem pushAll_eq_drop {α : Type} (cap : ℕ) (items : List α) :
    ∀ xs : List α, xs.length ≤ cap →
      pushAll cap xs items = (xs ++ items).drop (xs.length + items.length - cap) := by
  induction items with
  | nil =>
    intro xs h
    simp [pushAll, Nat.sub_eq_zero_of_le h]
  | cons x rest ih =>
    intro xs h
    have hstep : pushAll cap xs (x :: rest) = pushAll cap (pushBounded cap xs x) rest := rfl
    rcases Nat.lt_or_ge cap (xs.length + 1) with hc | hc
    · have hxs : xs.length = cap := le_antisymm h (Nat.lt_succ_iff.mp hc)
      have hpb : pushBounded cap xs x = (xs ++ [x]).drop 1 := by
        unfold pushBounded
        simp only [List.length_append, List.length_singleton]
        rw [if_pos (by omega)]
        congr 1
        omega
      have hlen : ((xs ++ [x]).drop 1).length = cap := by
        simp [List.length_drop, hxs]
      rw [hstep, hpb, ih _ (le_of_eq hlen)]
      have h1 : ((xs ++ [x]).drop 1) ++ rest = ((xs ++ [x]) ++ rest).drop 1 :=
        (List.drop_append_of_le_length (by simp)).symm
      rw [hlen, h1, List.drop_drop]
      have h2 : (xs ++ [x]) ++ rest = xs ++ (x :: rest) := by simp
      rw [h2]
      congr 1
      simp only [List.length_cons, List.length_nil]
      omega
    · have hpb : pushBounded cap xs x = xs ++ [x] := by
        unfold pushBounded
        simp only [List.length_append, List.length_singleton]
        rw [if_neg (by omega)]
      rw [hstep, hpb, ih _ (by simpa using hc)]
      have h2 : (xs ++ [x]) ++ rest = xs ++ (x :: rest) := by simp
      rw [h2]
      congr 1
      simp only [List.length_append, List.length_singleton, List.length_cons,
        List.length_nil]
      omega

/-- C3: after pushing cap + k items into an initially empty bounded
window, the window holds exactly the last cap items pushed, in push
order; no window ever exceeds its capacity; and the three configured
capacities are 5000 (behavior history), 500 (cloud analytics buffer) and
1000 (health history). -/
theorem bounded_window_contents :
    (∀ (α : Type) (cap k : ℕ) (items : List α), items.length = cap + k →
      (pushAll cap [] items).length = cap ∧ pushAll cap [] items = items.drop k) ∧
    (∀ (α : Type) (cap : ℕ) (items : List α), (pushAll cap [] items).length ≤ cap) ∧
    (behavior_history_capacity = 5000 ∧ analytics_buffer_capacity = 500 ∧
      health_history_capacity = 1000) := by
  refine ⟨?_, ?_, rfl, rfl, rfl⟩
  · intro α cap k items hlen
    have h := pushAll_eq_drop cap items [] (by simp)
    simp only [List.nil_append, List.length_nil, Nat.zero_add] at h
    rw [h]
    constructor
    · rw [List.length_drop]
      omega
    · congr 1
      omega
  · intro α cap items
    have h := pushAll_eq_drop cap items [] (by simp)
    simp only [List.nil_append, List.length_nil, Nat.zero_add] at h
    rw [h, List.length_drop]
    omega

/-- Witness for C3: a window of capacity 3 fed 5 items keeps the last 3. -/
theorem bounded_window_contents_witness :
    ([0, 1, 2, 3, 4] : List ℕ).length = 3 + 2 ∧
    ((pushAll 3 [] ([0, 1, 2, 3, 4] : List ℕ)).length = 3 ∧
      pushAll 3 [] ([0, 1, 2, 3, 4] : List ℕ) = [0, 1, 2, 3, 4].drop 2) :=
  ⟨by decide, bounded_window_contents.1 ℕ 3 2 [0, 1, 2, 3, 4] (by decide)⟩

/-- Unfolding of List.lookup over a cons cell. -/
theorem lookup_cons {β : Type} (k a : String) (v : β) (rest : List (String × β)) :
    ((k, v) :: rest).lookup a = if a == k then some v else rest.lookup a := by
  cases hak : a == k <;> simp [List.lookup, hak]

/-- Lookup ignores a suffix once the key is found. -/
theorem lookup_append_some {β : Type} (l t : List (String × β)) (a : String)
    (w : β) (h : l.lookup a = some w) : (l ++ t).lookup a = some w := by
  induction l with
  | nil => simp [List.lookup] at h
  | cons p rest ih =>
    obtain ⟨k, v⟩ := p
    cases hak : a == k
    · rw [lookup_cons, hak] at h
      simp only [List.cons_append, lookup_cons, hak]
      exact ih (by simpa using h)
    · rw [lookup_cons, hak] at h
      simp only [List.cons_append, lookup_cons, hak]
      simpa using h

/-- Lookup falls through to the suffix when the key is absent. -/
theorem lookup_append_none {β : Type} (l t : List (String × β)) (a : String)
    (h : l.lookup a = none) : (l ++ t).lookup a = t.lookup a := by
  induction l with
  | nil => simp
  | cons p rest ih =>
    obtain ⟨k, v⟩ := p
    cases hak : a == k
    · rw [lookup_cons, hak] at h
      simp only [List.cons_append, lookup_cons, hak]
      exact ih (by simpa using h)
    · rw [lookup_cons, hak] at h
      simp at h

/-- After a dict assignment the assigned key reads back the new value. -/
theorem lookup_setAssoc_self {β : Type} (l : List (String × β)) (key : String)
    (v : β) : (setAssoc l key v).lookup key = some v := by
  induction l with
  | nil => simp [setAssoc, lookup_cons]
  | cons p rest ih =>
    obtain ⟨k, w⟩ := p
    by_cases hk : k = key
    · simp [setAssoc, hk, lookup_cons]
    · have hkey : (key == k) = false := by
        refine beq_eq_false_iff_ne.mpr ?_
        exact fun h => hk h.symm
      simp only [setAssoc, if_neg hk, lookup_cons, hkey, if_neg Bool.false_ne_true]
      exact ih

/-- A dict assignment leaves every other key unchanged. -/
theorem lookup_setAssoc_ne {β : Type} (l : List (String × β)) (key a : String)
    (v : β) (h : a ≠ key) : (setAssoc l key v).lookup a = l.lookup a := by
  induction l with
  | nil =>
    have hkey : (a == key) = false := beq_eq_false_iff_ne.mpr h
    simp [setAssoc, lookup_cons, hkey]
  | cons p rest ih =>
    obtain ⟨k, w⟩ := p
    by_cases hk : k = key
    · have hak : (a == k) = false := beq_eq_false_iff_ne.mpr (hk ▸ h)
      simp [setAssoc, hk, lookup_cons, hak, h]
    · cases hak : a == k <;>
        simp [setAssoc, if_neg hk, lookup_cons, hak, ih]

namespace Twin

/-- Appending one pair bumps the per-activity pair count exactly for its
own activity. -/
theorem sessions_for_append (a b : String) (u : ℚ) (ps : List (String × ℚ)) :
    sessions_for a (ps ++ [(b, u)]) =
      sessions_for a ps + (if b == a then 1 else 0) := by
  cases hb : b == a <;> simp [sessions_for, List.filter_append, hb]

/-- Appending one pair adds its duration exactly to its own activity. -/
theorem total_for_append (a b : String) (u : ℚ) (ps : List (String × ℚ)) :
    total_for a (ps ++ [(b, u)]) =
      total_for a ps + (if b == a then u else 0) := by
  cases hb : b == a <;> simp [total_for, List.filter_append, hb]

/-- An activity with no submitted pair has total 0. -/
theorem total_for_eq_zero (a : String) (ps : List (String × ℚ))
    (h : sessions_for a ps = 0) : total_for a ps = 0 := by
  rw [sessions_for] at h
  rw [total_for, List.length_eq_zero.mp h]
  simp

/-- C7: after any sequence of (activity, duration) updates, each updated
activity's stat stores exactly the number of its pairs, the exact sum of
its durations and the running average total over sessions; unseen
activities store nothing. -/
theorem usage_patterns_exact (ps : List (String × ℚ)) :
    ∀ a : String, (update_patterns_list ps).lookup a =
      if sessions_for a ps = 0 then none
      else some { total := total_for a ps, sessions := sessions_for a ps,
                  avg_session := total_for a ps / ((sessions_for a ps : ℕ) : ℚ) } := by
  induction ps using List.reverseRecOn with
  | nil => intro a; simp [update_patterns_list, sessions_for]
  | append_singleton ps p ih =>
    obtain ⟨b, u⟩ := p
    intro a
    have hfold : update_patterns_list (ps ++ [(b, u)]) =
        update_pattern (update_patterns_list ps) b u := by
      simp [update_patterns_list, List.foldl_append]
    rw [hfold]
    by_cases hs : sessions_for b ps = 0
    · have hnone : (update_patterns_list ps).lookup b = none := by
        rw [ih b, if_pos hs]
      rw [update_pattern, hnone]
      by_cases hab : a = b
      · subst hab
        rw [lookup_append_none _ _ _ hnone, lookup_cons]
        have haa : (a == a) = true := by simp
        have hts : total_for a ps = 0 := total_for_eq_zero a ps hs
        simp [haa, sessions_for_append, total_for_append, hs, hts]
      · have hba : (b == a) = false := by
          refine beq_eq_false_iff_ne.mpr ?_
          exact fun h => hab h.symm
        have hablit : (a == b) = false := beq_eq_false_iff_ne.mpr hab
        cases hcase : (update_patterns_list ps).lookup a with
        | none =>
          rw [lookup_append_none _ _ _ hcase, lookup_cons]
          rw [ih a] at hcase
          simp only [hablit, if_neg Bool.false_ne_true, List.lookup_nil]
          rw [sessions_for_append, total_for_append, hba]
          simpa using hcase.symm
        | some w =>
          rw [lookup_append_some _ _ _ _ hcase]
          rw [ih a] at hcase
          rw [sessions_for_append, total_for_append, hba]
          simpa using hcase.symm
    · have hsome : (update_patterns_list ps).lookup b =
          some { total := total_for b ps, sessions := sessions_for b ps,
                 avg_session := total_for b ps / ((sessions_for b ps : ℕ) : ℚ) } := by
        rw [ih b, if_neg hs]
      rw [update_pattern, hsome]
      by_cases hab : a = b
      · subst hab
        rw [lookup_setAssoc_self]
        have haa : (a == a) = true := by simp
        rw [sessions_for_append, total_for_append, haa]
        have hne : sessions_for a ps + 1 ≠ 0 := by omega
        simp [if_neg hne]
      · have hba : (b == a) = false := by
          refine beq_eq_false_iff_ne.mpr ?_
          exact fun h => hab h.symm
        rw [lookup_setAssoc_ne _ _ _ _ hab, ih a]
        rw [sessions_for_append, total_for_append, hba]
        simp

/-- C9: no data-ingestion and no detection operation changes either
configurable threshold; among the control commands only update_threshold
touches the daily-overuse threshold, and no command at all touches the
session threshold. -/
theorem thresholds_only_changed_by_update_command :
    (∀ (st : TwinState) (op : TwinOp),
      (∀ v : Option ℚ, op ≠ TwinOp.command (Command.update_threshold v)) →
      (apply_twin_op st op).overuse_threshold = st.overuse_threshold ∧
      (apply_twin_op st op).session_threshold = st.session_threshold) ∧
    (∀ (st : TwinState) (c : Command),
      (handle_command st c).session_threshold = st.session_threshold) := by
  constructor
  · intro st op h
    cases op with
    | ingest data =>
      simp [apply_twin_op, add_behavior_data, update_patterns]
    | command c =>
      cases c with
      | update_threshold v => exact absurd rfl (h v)
      | reset_patterns => simp [apply_twin_op, handle_command]
      | other => simp [apply_twin_op, handle_command]
    | detect today => exact ⟨rfl, rfl⟩
  · intro st c
    cases c <;> simp [handle_command]

/-- Witness for C9: a detection pass on a fresh twin leaves both
thresholds unchanged. -/
theorem thresholds_only_changed_by_update_command_witness :
    (∀ v : Option ℚ,
      TwinOp.detect "2024-01-01" ≠ TwinOp.command (Command.update_threshold v)) ∧
    ((apply_twin_op init_twin (TwinOp.detect "2024-01-01")).overuse_threshold =
        init_twin.overuse_threshold ∧
      (apply_twin_op init_twin (TwinOp.detect "2024-01-01")).session_threshold =
        init_twin.session_threshold) :=
  ⟨fun _ h => TwinOp.noConfusion h,
   thresholds_only_changed_by_update_command.1 init_twin
     (TwinOp.detect "2024-01-01") (fun _ h => TwinOp.noConfusion h)⟩

/-- C4: with the daily threshold configured to 8.0 hours via the control
command, a same-day accumulated duration of exactly 9.5 hours yields
exactly one daily_overuse insight of severity medium, and 10.5 hours
yields exactly one of severity high. -/
theorem daily_overuse_severity_bands :
    (detect_overuse_patterns (twin_daily 9.5) "2024-01-15").filter
        (fun i => i.pattern_type == "daily_overuse") =
      [{ pattern_type := "daily_overuse", severity := "medium", confidence := 0.9 }] ∧
    (detect_overuse_patterns (twin_daily 10.5) "2024-01-15").filter
        (fun i => i.pattern_type == "daily_overuse") =
      [{ pattern_type := "daily_overuse", severity := "high", confidence := 0.9 }] := by
  have hdate : dateOf "2024-01-15T12:00:00" = "2024-01-15" := by decide
  have hhour : hourOf "2024-01-15T12:00:00" = 12 := by decide
  constructor <;>
    norm_num [twin_daily, sample_at, detect_overuse_patterns, add_behavior_data,
      handle_command, init_twin, update_patterns, append_daily, pushBounded,
      behavior_history_capacity, recent_data_of, detect_long_sessions,
      daily_insights, session_insights, late_insights,
      detect_late_night_usage, late_night_step, hdate, hhour, List.lookup]

/-- Closed form of the late-night loop: it accumulates the sum of the
late-band screen times exceeding 0.2 and the count of late-band
samples. -/
theorem foldl_late_night_step (data : List UserBehaviorData) :
    ∀ (s : ℚ) (n : ℕ),
      data.foldl late_night_step (s, n) =
        (s + late_band_usage data, n + (late_band_samples data).length) := by
  induction data with
  | nil =>
    intro s n
    simp [late_band_usage, heavy_late_band_samples, late_band_samples]
  | cons e rest ih =>
    intro s n
    simp only [List.foldl_cons]
    by_cases hl : 22 ≤ hourOf e.timestamp ∨ hourOf e.timestamp ≤ 6
    · by_cases hh : e.screen_time > 0.2
      · have hstep : late_night_step (s, n) e = (s + e.screen_time, n + 1) := by
          simp [late_night_step, hl, hh]
        rw [hstep, ih]
        simp [late_band_usage, heavy_late_band_samples, late_band_samples,
          List.filter_cons, hl, hh]
        constructor
        · ring
        · omega
      · have hstep : late_night_step (s, n) e = (s, n + 1) := by
          simp [late_night_step, hl, hh]
        rw [hstep, ih]
        simp [late_band_usage, heavy_late_band_samples, late_band_samples,
          List.filter_cons, hl, hh]
        omega
    · have hstep : late_night_step (s, n) e = (s, n) := by
        simp [late_night_step, hl]
      rw [hstep, ih]
      simp [late_band_usage, heavy_late_band_samples, late_band_samples,
        List.filter_cons, hl]

/-- Characterisation of _detect_late_night_usage in terms of the
late-band sample count and the filtered late-band usage sum. -/
theorem detect_late_night_usage_eq (data : List UserBehaviorData) :
    detect_late_night_usage data =
      if (late_band_samples data).length = 0 then false
      else if late_band_usage data /
          ((max (late_band_samples data).length 1 : ℕ) : ℚ) > 0.3 ∨
          late_band_usage data > 0.5 then true else false := by
  unfold detect_late_night_usage
  rw [foldl_late_night_step]
  simp

/-- The daily-overuse rule never produces a late-night insight. -/
theorem filter_daily_not_late (st : TwinState) (today : String) :
    (daily_insights st today).filter
      (fun i => i.pattern_type == "late_night_usage") = [] := by
  have hne : ("daily_overuse" == "late_night_usage") = false := by decide
  unfold daily_insights
  cases st.daily_stats.lookup today with
  | none => rfl
  | some l =>
    dsimp only
    split_ifs <;> simp [hne]

/-- The long-session rule never produces a late-night insight. -/
theorem filter_session_not_late (st : TwinState) :
    (session_insights st).filter
      (fun i => i.pattern_type == "late_night_usage") = [] := by
  have hne : ("long_sessions" == "late_night_usage") = false := by decide
  unfold session_insights
  split_ifs <;> simp [hne]

/-- Only the late-night rule produces late-night insights. -/
theorem filter_late_insights (st : TwinState) :
    (late_insights st).filter
      (fun i => i.pattern_type == "late_night_usage") = late_insights st := by
  have heq : ("late_night_usage" == "late_night_usage") = true := by decide
  unfold late_insights
  split_ifs <;> simp [heq]

/-- C5 (amended): a window whose late-band samples all have screen time
0 produces no late_night_usage insight; and whenever the late-band
average of the screen times exceeding 0.2 is above 0.3 — or their sum is
above 0.5 — exactly one late_night_usage insight of severity high is
produced.  (The unfiltered late-band average of the original claim is
refuted by late_night_claim_cex.) -/
theorem late_night_detection_amended :
    (∀ (st : TwinState) (today : String),
      (∀ e ∈ recent_data_of st,
        (22 ≤ hourOf e.timestamp ∨ hourOf e.timestamp ≤ 6) → e.screen_time = 0) →
      (detect_overuse_patterns st today).filter
        (fun i => i.pattern_type == "late_night_usage") = []) ∧
    (∀ (st : TwinState) (today : String),
      (late_band_usage (recent_data_of st) /
          ((max (late_band_samples (recent_data_of st)).length 1 : ℕ) : ℚ) > 0.3 ∨
        late_band_usage (recent_data_of st) > 0.5) →
      (detect_overuse_patterns st today).filter
        (fun i => i.pattern_type == "late_night_usage") =
        [{ pattern_type := "late_night_usage", severity := "high", confidence := 0.85 }]) := by
  constructor
  · intro st today h
    by_cases hhist : st.behavior_history = []
    · simp [detect_overuse_patterns, hhist]
    · have husage : late_band_usage (recent_data_of st) = 0 := by
        unfold late_band_usage heavy_late_band_samples
        have hnil : (late_band_samples (recent_data_of st)).filter
            (fun e => decide (e.screen_time > 0.2)) = [] := by
          rw [List.filter_eq_nil_iff]
          intro e he
          have hmem := List.mem_filter.mp he
          have hzero : e.screen_time = 0 :=
            h e hmem.1 (by simpa using hmem.2)
          simp [hzero]
          norm_num
        rw [hnil]
        rfl
      have hdetect : detect_late_night_usage (recent_data_of st) = false := by
        rw [detect_late_night_usage_eq, husage]
        by_cases hc : (late_band_samples (recent_data_of st)).length = 0
        · rw [if_pos hc]
        · rw [if_neg hc, if_neg]
          push_neg
          constructor
          · norm_num
          · norm_num
      rw [detect_overuse_patterns, if_neg hhist, List.filter_append,
        List.filter_append, filter_daily_not_late, filter_session_not_late,
        filter_late_insights, late_insights, if_neg]
      · rfl
      · simp [hdetect]
  · intro st today hcond
    have husage_pos : 0 < late_band_usage (recent_data_of st) := by
      rcases hcond with h | h
      · have hm : (0:ℚ) <
            ((max (late_band_samples (recent_data_of st)).length 1 : ℕ) : ℚ) := by
          have h1 : 1 ≤ max (late_band_samples (recent_data_of st)).length 1 :=
            le_max_right _ _
          exact_mod_cast lt_of_lt_of_le zero_lt_one (by exact_mod_cast h1)
        have hpos : 0 < late_band_usage (recent_data_of st) /
            ((max (late_band_samples (recent_data_of st)).length 1 : ℕ) : ℚ) := by
          linarith
        rcases div_pos_iff.mp hpos with ⟨ha, _⟩ | ⟨_, hb⟩
        · exact ha
        · linarith
      · linarith
    have hheavy : heavy_late_band_samples (recent_data_of st) ≠ [] := by
      intro hnil
      rw [late_band_usage, hnil] at husage_pos
      simp at husage_pos
    have hlate_band : late_band_samples (recent_data_of st) ≠ [] := by
      intro hnil
      exact hheavy (by rw [heavy_late_band_samples, hnil]; rfl)
    have hcount : (late_band_samples (recent_data_of st)).length ≠ 0 := by
      simpa [List.length_eq_zero] using hlate_band
    have hrecent : recent_data_of st ≠ [] := by
      intro hnil
      exact hlate_band (by rw [late_band_samples, hnil]; rfl)
    have hhist : st.behavior_history ≠ [] := by
      intro hnil
      exact hrecent (by rw [recent_data_of, hnil]; rfl)
    have hdetect : detect_late_night_usage (recent_data_of st) = true := by
      rw [detect_late_night_usage_eq, if_neg hcount, if_pos hcond]
    rw [detect_overuse_patterns, if_neg hhist, List.filter_append,
      List.filter_append, filter_daily_not_late, filter_session_not_late,
      filter_late_insights, late_insights, if_pos hdetect]
    rfl

/-- C5 counterexample: in the window of twin_late_cex the true average
screen time over the late-band samples is 0.325, above the 0.3 ratio
threshold, yet the detection emits no late-night insight, because its
loop drops the 0.2-hour sample from the numerator while still counting
it in the denominator. -/
theorem late_night_claim_cex :
    ((late_band_samples (recent_data_of twin_late_cex)).map
        (fun e => e.screen_time)).sum /
      (((late_band_samples (recent_data_of twin_late_cex)).length : ℕ) : ℚ) > 0.3 ∧
    (detect_overuse_patterns twin_late_cex "2024-01-15").filter
      (fun i => i.pattern_type == "late_night_usage") = [] := by
  have h1 : hourOf "2024-01-15T23:00:00" = 23 := by decide
  have h2 : hourOf "2024-01-15T23:30:00" = 23 := by decide
  have hd1 : dateOf "2024-01-15T23:00:00" = "2024-01-15" := by decide
  have hd2 : dateOf "2024-01-15T23:30:00" = "2024-01-15" := by decide
  constructor <;>
    norm_num [twin_late_cex, sample_at, add_behavior_data, init_twin,
      update_patterns, append_daily, setAssoc, pushBounded,
      behavior_history_capacity, recent_data_of, detect_overuse_patterns,
      daily_insights, session_insights, late_insights, detect_long_sessions,
      detect_late_night_usage, late_night_step, late_band_samples,
      late_band_usage, heavy_late_band_samples,
      h1, h2, hd1, hd2, List.lookup]

/-- Witness for C5: a window with one idle late-night sample produces no
late-night insight, and one with a 0.6-hour late-night sample produces
exactly the high-severity insight. -/
theorem late_night_detection_amended_witness :
    ((∀ e ∈ recent_data_of twin_late_zero,
        (22 ≤ hourOf e.timestamp ∨ hourOf e.timestamp ≤ 6) → e.screen_time = 0) ∧
      (detect_overuse_patterns twin_late_zero "2024-01-15").filter
        (fun i => i.pattern_type == "late_night_usage") = []) ∧
    ((late_band_usage (recent_data_of twin_late_heavy) /
          ((max (late_band_samples (recent_data_of twin_late_heavy)).length 1 : ℕ) : ℚ) > 0.3 ∨
        late_band_usage (recent_data_of twin_late_heavy) > 0.5) ∧
      (detect_overuse_patterns twin_late_heavy "2024-01-15").filter
        (fun i => i.pattern_type == "late_night_usage") =
        [{ pattern_type := "late_night_usage", severity := "high", confidence := 0.85 }]) := by
  have h23 : hourOf "2024-01-15T23:00:00" = 23 := by decide
  have hzero : ∀ e ∈ recent_data_of twin_late_zero,
      (22 ≤ hourOf e.timestamp ∨ hourOf e.timestamp ≤ 6) → e.screen_time = 0 := by
    intro e he _
    simp [twin_late_zero, sample_at, add_behavior_data, init_twin,
      update_patterns, append_daily, pushBounded, behavior_history_capacity,
      recent_data_of] at he
    subst he
    rfl
  have hheavy : late_band_usage (recent_data_of twin_late_heavy) /
        ((max (late_band_samples (recent_data_of twin_late_heavy)).length 1 : ℕ) : ℚ) > 0.3 ∨
      late_band_usage (recent_data_of twin_late_heavy) > 0.5 := by
    right
    norm_num [twin_late_heavy, sample_at, add_behavior_data, init_twin,
      update_patterns, append_daily, pushBounded, behavior_history_capacity,
      recent_data_of, late_band_usage, heavy_late_band_samples,
      late_band_samples, h23]
  exact ⟨⟨hzero, late_night_detection_amended.1 twin_late_zero "2024-01-15" hzero⟩,
    ⟨hheavy, late_night_detection_amended.2 twin_late_heavy "2024-01-15" hheavy⟩⟩

end Twin

namespace Edge

/-- A value clamped below at 0 and above at 1 lies in the unit
interval. -/
theorem clamp_unit_bounds (x : ℚ) :
    0 ≤ max 0.0 (min 1.0 x) ∧ max 0.0 (min 1.0 x) ≤ 1 := by
  constructor <;> (simp only [max_def, min_def]; split_ifs <;> linarith)

/-- C6: for every sample with non-negative screen time and app-usage
durations, usage_intensity lies in the unit interval; and for every
sample, ambient input and random draws in their stated ranges,
context_score lies in the unit interval. -/
theorem derived_metrics_in_unit_interval :
    (∀ data : UserBehaviorData,
      0 ≤ data.screen_time →
      (∀ p ∈ data.app_usage, 0 ≤ p.2) →
      0 ≤ calculate_usage_intensity data ∧ calculate_usage_intensity data ≤ 1) ∧
    (∀ (data : UserBehaviorData) (light_intensity noise_level u_time u_random : ℚ),
      0 ≤ u_time → u_time ≤ 1 → 0 ≤ u_random → u_random ≤ 1 →
      0 ≤ calculate_context_score data light_intensity noise_level u_time u_random ∧
      calculate_context_score data light_intensity noise_level u_time u_random ≤ 1) := by
  constructor
  · intro data h1 h2
    have hsum : 0 ≤ (data.app_usage.map Prod.snd).sum := by
      refine List.sum_nonneg ?_
      intro x hx
      obtain ⟨p, hp, rfl⟩ := List.mem_map.mp hx
      exact h2 p hp
    have a1 : 0 ≤ min (data.screen_time / 2.0) 1.0 :=
      le_min (div_nonneg h1 (by norm_num)) (by norm_num)
    have a2 : 0 ≤ min ((data.touch_interactions : ℚ) / 600.0) 1.0 :=
      le_min (div_nonneg (Nat.cast_nonneg _) (by norm_num)) (by norm_num)
    have a3 : 0 ≤ min ((data.unlock_frequency : ℚ) / 100.0) 1.0 :=
      le_min (div_nonneg (Nat.cast_nonneg _) (by norm_num)) (by norm_num)
    have a4 : 0 ≤ min ((data.app_usage.map Prod.snd).sum / 3.0) 1.0 :=
      le_min (div_nonneg hsum (by norm_num)) (by norm_num)
    have b1 : min (data.screen_time / 2.0) 1.0 ≤ 1 :=
      le_trans (min_le_right _ _) (by norm_num)
    have b2 : min ((data.touch_interactions : ℚ) / 600.0) 1.0 ≤ 1 :=
      le_trans (min_le_right _ _) (by norm_num)
    have b3 : min ((data.unlock_frequency : ℚ) / 100.0) 1.0 ≤ 1 :=
      le_trans (min_le_right _ _) (by norm_num)
    have b4 : min ((data.app_usage.map Prod.snd).sum / 3.0) 1.0 ≤ 1 :=
      le_trans (min_le_right _ _) (by norm_num)
    unfold calculate_usage_intensity
    simp only [List.sum_cons, List.sum_nil, List.length_cons, List.length_nil]
    push_cast
    constructor
    · apply div_nonneg _ (by norm_num)
      linarith
    · rw [div_le_one (by norm_num)]
      linarith
  · intro data li nl ut ur hu1 hu2 hr1 hr2
    unfold calculate_context_score
    exact clamp_unit_bounds _

/-- Witness for C6: both derived metrics evaluated on a concrete midday
sample with draws at one half. -/
theorem derived_metrics_in_unit_interval_witness :
    (0 ≤ (Twin.sample_at "2024-01-15T12:00:00" 1).screen_time ∧
      (∀ p ∈ (Twin.sample_at "2024-01-15T12:00:00" 1).app_usage, 0 ≤ p.2) ∧
      (0 ≤ calculate_usage_intensity (Twin.sample_at "2024-01-15T12:00:00" 1) ∧
        calculate_usage_intensity (Twin.sample_at "2024-01-15T12:00:00" 1) ≤ 1)) ∧
    (0 ≤ (1/2 : ℚ) ∧ (1/2 : ℚ) ≤ 1 ∧
      (0 ≤ calculate_context_score (Twin.sample_at "2024-01-15T12:00:00" 1) 100 40 (1/2) (1/2) ∧
        calculate_context_score (Twin.sample_at "2024-01-15T12:00:00" 1) 100 40 (1/2) (1/2) ≤ 1)) := by
  have hscreen : 0 ≤ (Twin.sample_at "2024-01-15T12:00:00" 1).screen_time := by
    norm_num [Twin.sample_at]
  have happ : ∀ p ∈ (Twin.sample_at "2024-01-15T12:00:00" 1).app_usage, 0 ≤ p.2 := by
    simp [Twin.sample_at]
  have hhalf1 : (0:ℚ) ≤ 1/2 := by norm_num
  have hhalf2 : (1/2:ℚ) ≤ 1 := by norm_num
  exact ⟨⟨hscreen, happ,
      derived_metrics_in_unit_interval.1 _ hscreen happ⟩,
    ⟨hhalf1, hhalf2,
      derived_metrics_in_unit_interval.2 _ 100 40 (1/2) (1/2)
        hhalf1 hhalf2 hhalf1 hhalf2⟩⟩

end Edge

namespace SmartHome

/-- A dict assignment results in exactly one entry for the assigned key,
provided the key was stored at most once before. -/
theorem filter_setAssoc_length {σ : Type} (l : List (String × σ)) (key : String)
    (v : σ) (h : (l.filter (fun p => p.1 = key)).length ≤ 1) :
    ((setAssoc l key v).filter (fun p => p.1 = key)).length = 1 := by
  induction l with
  | nil => simp [setAssoc]
  | cons p rest ih =>
    obtain ⟨k, w⟩ := p
    by_cases hk : k = key
    · subst hk
      simp [setAssoc, List.filter_cons] at h ⊢
      exact h
    · simp only [setAssoc, if_neg hk]
      simp only [List.filter_cons, decide_eq_true_eq, if_neg hk] at h ⊢
      exact ih h

/-- Applying an intervention with a known device id takes the success
branch: overwrite the device settings, append one history record. -/
theorem apply_intervention_known {σ : Type} (iv : SmartHomeIntervention σ)
    (h : iv.device ∈ available_devices) (st : SmartHomeState σ) (now : ℚ) :
    apply_intervention st now iv =
      ({ device_states := setAssoc st.device_states iv.device iv.settings,
         intervention_history := st.intervention_history ++ [(now, iv)] }, true) := by
  have hc : available_devices.contains iv.device = true := by simpa using h
  simp [apply_intervention, hc, h]

/-- C8: applying the same known-device intervention twice succeeds both
times, appends exactly two history records, and leaves exactly one
device-state entry for that device holding the intervention settings;
and an application succeeds exactly when the device id is known. -/
theorem apply_intervention_record_keeping :
    (∀ (σ : Type) (st : SmartHomeState σ) (now1 now2 : ℚ)
        (iv : SmartHomeIntervention σ),
      device_entry_count st iv.device ≤ 1 →
      iv.device ∈ available_devices →
      (apply_intervention st now1 iv).2 = true ∧
      (apply_intervention (apply_intervention st now1 iv).1 now2 iv).2 = true ∧
      ((apply_intervention (apply_intervention st now1 iv).1 now2 iv).1).intervention_history.length =
        st.intervention_history.length + 2 ∧
      device_entry_count
        (apply_intervention (apply_intervention st now1 iv).1 now2 iv).1 iv.device = 1 ∧
      ((apply_intervention (apply_intervention st now1 iv).1 now2 iv).1).device_states.lookup
        iv.device = some iv.settings) ∧
    (∀ (σ : Type) (st : SmartHomeState σ) (now : ℚ) (iv : SmartHomeIntervention σ),
      (apply_intervention st now iv).2 = true ↔ iv.device ∈ available_devices) := by
  constructor
  · intro σ st now1 now2 iv hwf hknown
    simp only [apply_intervention_known iv hknown]
    refine ⟨by simp, by simp, ?_, ?_, ?_⟩
    · simp
    · simp only [device_entry_count] at hwf ⊢
      exact filter_setAssoc_length _ _ _
        (le_of_eq (filter_setAssoc_length _ _ _ hwf))
    · exact lookup_setAssoc_self _ _ _
  · intro σ st now iv
    constructor
    · intro h
      by_contra hmem
      simp [apply_intervention, hmem] at h
    · intro h
      simp [apply_intervention_known iv h]

/-- Witness for C8: the demo intervention applied twice to a fresh smart
home keeps two history records and one device-state entry. -/
theorem apply_intervention_record_keeping_witness :
    (device_entry_count (init_smart_home : SmartHomeState ℕ)
        demo_intervention.device ≤ 1 ∧
      demo_intervention.device ∈ available_devices) ∧
    ((apply_intervention (init_smart_home : SmartHomeState ℕ) 0 demo_intervention).2 = true ∧
      (apply_intervention
        (apply_intervention (init_smart_home : SmartHomeState ℕ) 0 demo_intervention).1
        1 demo_intervention).2 = true ∧
      ((apply_intervention
        (apply_intervention (init_smart_home : SmartHomeState ℕ) 0 demo_intervention).1
        1 demo_intervention).1).intervention_history.length =
          (init_smart_home : SmartHomeState ℕ).intervention_history.length + 2 ∧
      device_entry_count
        (apply_intervention
          (apply_intervention (init_smart_home : SmartHomeState ℕ) 0 demo_intervention).1
          1 demo_intervention).1 demo_intervention.device = 1 ∧
      ((apply_intervention
        (apply_intervention (init_smart_home : SmartHomeState ℕ) 0 demo_intervention).1
        1 demo_intervention).1).device_states.lookup demo_intervention.device =
          some demo_intervention.settings) :=
  ⟨⟨by decide, by decide⟩,
   apply_intervention_record_keeping.1 ℕ init_smart_home 0 1 demo_intervention
     (by decide) (by decide)⟩

end SmartHome

namespace HealthMonitor

/-- Clamping below at 0 then above at 1 agrees with clamping above at 1
then below at 0. -/
theorem max_min_clamp_comm (x : ℚ) :
    max 0.0 (min 1.0 x) = min 1.0 (max 0.0 x) := by
  simp only [max_def, min_def]
  split_ifs <;> first | rfl | linarith

/-- The tracked component count is 4. -/
theorem expected_components_length :
    ((expected_components.length : ℕ) : ℚ) = (4 : ℚ) := by
  norm_num [expected_components]

/-- C1 counterexample: at error_rate 0.15 (nine errors in the last hour)
with every other metric perfect, the source reports critical (0.15
exceeds the 0.1 critical threshold, which the code does not double),
while the claimed rule with the doubled cut-off reports degraded. -/
theorem determine_system_status_claim_cex :
    determine_system_status 0.15 0 1 0 1 = "critical" ∧
    system_status_claimed 0.15 0 1 0 1 = "degraded" ∧
    determine_system_status 0.15 0 1 0 1 ≠ system_status_claimed 0.15 0 1 0 1 := by
  have h1 : determine_system_status 0.15 0 1 0 1 = "critical" := by
    norm_num [determine_system_status, critical_error_rate]
  have h2 : system_status_claimed 0.15 0 1 0 1 = "degraded" := by
    norm_num [system_status_claimed]
  exact ⟨h1, h2, by rw [h1, h2]; decide⟩

/-- C1 (amended): the system status is critical when error_rate exceeds
the 0.1 threshold itself (not doubled), or the response time, uptime,
data loss or connection stability crosses its doubled or hard bound;
otherwise degraded on any single non-doubled threshold crossing;
otherwise healthy.  In particular error_rate 0.25 with all other metrics
perfect is critical. -/
theorem determine_system_status_amended_correct :
    (∀ error_rate avg_response_time uptime data_loss_rate connection_stability : ℚ,
      determine_system_status error_rate avg_response_time uptime
          data_loss_rate connection_stability =
        system_status_amended error_rate avg_response_time uptime
          data_loss_rate connection_stability) ∧
    determine_system_status 0.25 0 1 0 1 = "critical" := by
  constructor
  · intro er rt up dl cs
    norm_num [determine_system_status, system_status_amended,
      critical_error_rate, degraded_error_rate, max_response_time, min_uptime,
      max_data_loss, min_connection_stability]
  · norm_num [determine_system_status, critical_error_rate]

/-- C2: the health score is the claimed weighted sum, each parenthesized
term floored at 0 before weighting, with the final sum clamped to the
unit interval; and the perfect snapshot scores exactly 1. -/
theorem calculate_health_score_correct :
    (∀ (uptime : ℚ) (failures : ℕ)
        (error_rate response_time data_loss connection_stability : ℚ),
      calculate_health_score uptime failures error_rate response_time
          data_loss connection_stability =
        health_score_claimed uptime failures error_rate response_time
          data_loss connection_stability) ∧
    calculate_health_score 1 0 0 0 0 1 = 1 := by
  constructor
  · intro u f er rt dl cs
    unfold calculate_health_score health_score_claimed
    rw [expected_components_length, max_min_clamp_comm]
  · unfold calculate_health_score
    norm_num [expected_components_length]

/-- C10: a health evaluation on a monitor that has observed nothing (no
snapshots, components, errors, response times, loss events or connection
events) returns the perfect snapshot: uptime 1, no failures, zero rates,
stability 1, health score 1 and status healthy. -/
theorem evaluate_system_health_empty (start_time now : ℚ) :
    evaluate_system_health (init_monitor start_time) now =
      { timestamp := now
        overall_uptime := 1
        component_failures := 0
        error_rate := 0
        avg_response_time := 0
        data_loss_rate := 0
        connection_stability := 1
        system_status := "healthy"
        health_score := 1 } := by
  unfold evaluate_system_health init_monitor calculate_system_uptime
    count_component_failures calculate_error_rate
    calculate_average_response_time calculate_data_loss_rate
    calculate_connection_stability
  norm_num [determine_system_status, calculate_health_score,
    critical_error_rate, degraded_error_rate, max_response_time, min_uptime,
    max_data_loss, min_connection_stability, expected_components]

end HealthMonitor

end IoTPhenotyping
